import Mathlib

/-!
A verification development for the uConsole trackball driver
(`clockworkpi/uconsole/trackball.c`).  The driver converts raw trackball
pulses into either mouse-cursor deltas (MOUSE mode, via external rate-meter
and glider collaborators) or quantized scroll-wheel ticks (WHEEL mode, via a
fractional remainder buffer), switching between the two modes on an external
button flag.  The C state machine is embedded shallowly below: machine
integers become Int/Nat (with explicit reduction modulo 2^16 and 2^8 where
the C code relies on unsigned wraparound), C floats become real numbers, and
the interrupt/report entry points become pure state-passing functions.
-/

namespace Trackball

/-- Axis identity, mirroring the C enum AXIS_X = 0, AXIS_Y. -/
inductive Axis where
  | AXIS_X
  | AXIS_Y
deriving DecidableEq

/-- Output mode, mirroring the C enum MODE_WHEEL, MODE_MOUSE. -/
inductive Mode where
  | MODE_WHEEL
  | MODE_MOUSE
deriving DecidableEq

/-- A per-axis pair, mirroring the C arrays indexed by AXIS_X / AXIS_Y. -/
structure AxisPair (α : Type) where
  x : α
  y : α
deriving DecidableEq

/-- Array read at an axis index. -/
def AxisPair.get {α : Type} (p : AxisPair α) : Axis → α
  | Axis.AXIS_X => p.x
  | Axis.AXIS_Y => p.y

/-- Array write at an axis index. -/
def AxisPair.set {α : Type} (p : AxisPair α) : Axis → α → AxisPair α
  | Axis.AXIS_X, v => ⟨v, p.y⟩
  | Axis.AXIS_Y, v => ⟨p.x, v⟩

/-- The signed unit of the incrementing triggers (C macro TB_INCR). -/
def TB_INCR : Int := 1

/-- The signed unit of the decrementing triggers (C macro TB_DECR). -/
def TB_DECR : Int := -1

/-- The scroll quantization denominator (C constant WHEEL_DENOM = 2). -/
def WHEEL_DENOM : Int := 2

/-- Modelled from the spec: QMK's 16-bit timer helper TIMER_DIFF_16 is repo
code outside src/.  The spec mandates wraparound-safe unsigned subtraction
over the timer's 16-bit width, i.e. the value of (uint16_t)(a - b). -/
def TIMER_DIFF_16 (a b : Nat) : Nat := (a + 65536 - b % 65536) % 65536

/-- Modelled from the spec: rate_meter.c / rate_meter.h are repo code outside
src/.  The spec fixes only the interface: a continuous non-negative rate
estimate updated by pulse events (record_event) and elapsed-time ticks, a
delta accessor giving the magnitude of the most recent rate change, and an
expire operation forcing the estimate to the zero / idle state. -/
structure rate_meter_t where
  rate : ℝ
  delta : ℝ

/-- Modelled from the spec: record_event bumps the continuous estimate on
each directional pulse; the spec leaves the numeric update law open, but no
claim depends on it; any law changing the estimate supports them. -/
noncomputable def rate_meter_interrupt (m : rate_meter_t) : rate_meter_t :=
  { rate := m.rate + 1, delta := 1 }

/-- Modelled from the spec: the elapsed-time tick decays the continuous
estimate; the spec leaves the decay law open, and no claim depends on it. -/
noncomputable def rate_meter_tick (m : rate_meter_t) (elapsed : Nat) : rate_meter_t :=
  { rate := m.rate / (1 + (elapsed : ℝ)), delta := m.delta }

/-- Modelled from the spec: the current continuous rate estimate. -/
def rate_meter_rate (m : rate_meter_t) : ℝ := m.rate

/-- Modelled from the spec: magnitude of the most recent rate change. -/
def rate_meter_delta (m : rate_meter_t) : ℝ := m.delta

/-- Modelled from the spec: expire forces the estimate to zero / idle. -/
def rate_meter_expire (_ : rate_meter_t) : rate_meter_t :=
  { rate := 0, delta := 0 }

/-- Modelled from the spec: glider.c / glider.h are repo code outside src/.
The glide engine integrates a velocity into a fractional position, emits the
quantized integer part on each sampling, registers directional impulses and
velocity targets, and can be halted. -/
structure glider_t where
  dir : Int
  vel : ℝ
  jerk : ℝ
  pos : ℝ

/-- Modelled from the spec: registers a new directional impulse. -/
def glider_set_direction (g : glider_t) (direction : Int) : glider_t :=
  { g with dir := direction }

/-- Modelled from the spec: applies a velocity target together with a
sharpness / jerk term to the triggering axis. -/
def glider_update (g : glider_t) (velocity jerk_term : ℝ) : glider_t :=
  { g with vel := velocity, jerk := jerk_term }

/-- Modelled from the spec: applies a velocity target without a new
directional impulse to the perpendicular axis. -/
def glider_update_speed (g : glider_t) (velocity : ℝ) : glider_t :=
  { g with vel := velocity }

/-- Modelled from the spec: stop immediately zeroes the momentum. -/
def glider_stop (g : glider_t) : glider_t :=
  { g with vel := 0, pos := 0 }

/-- Truncation toward zero of a real number, the quantization used when the
glide engine emits an integer delta and keeps the fractional remainder. -/
noncomputable def qtrunc (r : ℝ) : Int := if r < 0 then -⌊-r⌋ else ⌊r⌋

/-- Modelled from the spec: glide advances the momentum integration by the
elapsed time and returns the quantized output delta for this tick, keeping
the fractional remainder; the spec leaves any decay law open, and no claim
depends on it. -/
noncomputable def glider_glide (g : glider_t) (elapsed : Nat) : Int × glider_t :=
  let p := g.pos + g.vel * (elapsed : ℝ)
  let out := qtrunc p
  (out, { g with pos := p - (out : ℝ) })

/-- A glider whose momentum has been halted: zero velocity and zero
fractional position. -/
def glider_t.halted (g : glider_t) : Prop := g.vel = 0 ∧ g.pos = 0

/-- The acceleration curve of trackball.c lines 31-41: dead zone below 0.05,
then 0.1 + x/20 + x^1.5/40 on the excess x over the dead zone. -/
noncomputable def rateToVelocityCurve (input : ℝ) : ℝ :=
  if |input| < 0.05 then 0
  else 0.1 + (|input| - 0.05) / 20 + (|input| - 0.05) ^ (1.5 : ℝ) / 40

/-- The combined-rate scale factor of trackball.c line 56 (the local named
ratio there): curve(rate)/rate when the Euclidean combined rate is positive,
and 0 otherwise, guarding the division. -/
noncomputable def velocity_scale (rx ry : ℝ) : ℝ :=
  let rate := Real.sqrt (rx * rx + ry * ry)
  if rate > 0 then rateToVelocityCurve rate / rate else 0

/-- The per-axis velocities of trackball.c lines 58-59: each axis's rate
multiplied by the combined scale factor. -/
noncomputable def axis_velocities (rx ry : ℝ) : ℝ × ℝ :=
  (rx * velocity_scale rx ry, ry * velocity_scale rx ry)

/-- The driver's process-wide mutable state: the C globals last_mode,
last_report, distances, rate_meters, gliders and wheel_buffer. -/
structure TBState where
  last_mode : Mode
  last_report : Nat
  distances : AxisPair Int
  rate_meters : AxisPair rate_meter_t
  gliders : AxisPair glider_t
  wheel_buffer : AxisPair Int

/-- The mode derived each tick from the externally owned button flag
(trackball.c line 102). -/
def mode_of (select_button_pressed : Bool) : Mode :=
  if select_button_pressed then Mode.MODE_WHEEL else Mode.MODE_MOUSE

/-- The pulse-ingestion routine trackball_move (trackball.c lines 43-69):
always accumulates the signed unit into distances, and in MOUSE mode also
records the pulse in the axis's rate meter, registers the direction with the
axis's glider, and redistributes the curve output to both gliders. -/
noncomputable def trackball_move (s : TBState) (axis : Axis) (direction : Int) : TBState :=
  let s1 := { s with distances := s.distances.set axis (s.distances.get axis + direction) }
  if s1.last_mode = Mode.MODE_WHEEL then s1
  else
    let meters := s1.rate_meters.set axis (rate_meter_interrupt (s1.rate_meters.get axis))
    let gliders0 := s1.gliders.set axis (glider_set_direction (s1.gliders.get axis) direction)
    let rx := rate_meter_rate (meters.get Axis.AXIS_X)
    let ry := rate_meter_rate (meters.get Axis.AXIS_Y)
    let v := axis_velocities rx ry
    let gliders1 :=
      match axis with
      | Axis.AXIS_X =>
          AxisPair.mk
            (glider_update (gliders0.get Axis.AXIS_X) v.1
              (Real.sqrt (rate_meter_delta (meters.get Axis.AXIS_X))))
            (glider_update_speed (gliders0.get Axis.AXIS_Y) v.2)
      | Axis.AXIS_Y =>
          AxisPair.mk
            (glider_update_speed (gliders0.get Axis.AXIS_X) v.1)
            (glider_update (gliders0.get Axis.AXIS_Y) v.2
              (Real.sqrt (rate_meter_delta (meters.get Axis.AXIS_Y))))
    { s1 with rate_meters := meters, gliders := gliders1 }

/-- The four local variables x, y, h, v of pointing_device_driver_get_report
as they stand at trackball.c line 143, before report assembly. -/
structure report_locals where
  x : Int
  y : Int
  h : Int
  v : Int
deriving DecidableEq

/-- The body of pointing_device_driver_get_report up to line 143: reads the
timer, computes the wraparound-safe 16-bit elapsed time, detects mode
transitions (expiring both rate meters, stopping both gliders and zeroing
both accumulator pairs on a transition, ticking the rate meters otherwise),
and then either samples the gliders (MOUSE, with the elapsed time cast down
to 8 bits) or quantizes the wheel buffer (WHEEL).  Returns the four local
variables together with the updated state. -/
noncomputable def report_ticks (s : TBState) (select_button_pressed : Bool)
    (timer_read : Nat) : report_locals × TBState :=
  let now := timer_read % 65536
  let delta := TIMER_DIFF_16 now s.last_report
  let s1 := { s with last_report := now }
  let mode := mode_of select_button_pressed
  let s2 :=
    if s1.last_mode ≠ mode then
      { s1 with
        rate_meters := AxisPair.mk (rate_meter_expire s1.rate_meters.x)
          (rate_meter_expire s1.rate_meters.y)
        gliders := AxisPair.mk (glider_stop s1.gliders.x) (glider_stop s1.gliders.y)
        wheel_buffer := AxisPair.mk 0 0
        distances := AxisPair.mk 0 0 }
    else
      { s1 with
        rate_meters := AxisPair.mk (rate_meter_tick s1.rate_meters.x delta)
          (rate_meter_tick s1.rate_meters.y delta) }
  let s3 := { s2 with last_mode := mode }
  match mode with
  | Mode.MODE_MOUSE =>
      let gx := glider_glide s3.gliders.x (delta % 256)
      let gy := glider_glide s3.gliders.y (delta % 256)
      (⟨gx.1, gy.1, 0, 0⟩,
       { s3 with gliders := AxisPair.mk gx.2 gy.2, distances := AxisPair.mk 0 0 })
  | Mode.MODE_WHEEL =>
      let wx := s3.wheel_buffer.x + s3.distances.x
      let wy := s3.wheel_buffer.y + s3.distances.y
      let h := Int.tdiv wx WHEEL_DENOM
      let v := Int.tdiv wy WHEEL_DENOM
      (⟨0, 0, h, v⟩,
       { s3 with
          wheel_buffer := AxisPair.mk (wx - h * WHEEL_DENOM) (wy - v * WHEEL_DENOM)
          distances := AxisPair.mk 0 0 })

/-- The outbound report (report_mouse_t): four signed fields. -/
structure report_mouse_t where
  x : Int
  y : Int
  h : Int
  v : Int
deriving DecidableEq

/-- pointing_device_driver_get_report (trackball.c lines 94-150): runs the
per-tick computation and assembles the outbound report from the four locals,
with the vertical scroll sign-inverted (line 148). -/
noncomputable def pointing_device_driver_get_report (s : TBState)
    (select_button_pressed : Bool) (timer_read : Nat) : report_mouse_t × TBState :=
  let ls := report_ticks s select_button_pressed timer_read
  (⟨ls.1.x, ls.1.y, ls.1.h, -ls.1.v⟩, ls.2)

/-- The C static initializers: MODE_MOUSE, zero timestamp, and all
accumulator and collaborator state zeroed. -/
def trackball_init : TBState :=
  { last_mode := Mode.MODE_MOUSE
    last_report := 0
    distances := AxisPair.mk 0 0
    rate_meters := AxisPair.mk ⟨0, 0⟩ ⟨0, 0⟩
    gliders := AxisPair.mk ⟨0, 0, 0, 0⟩ ⟨0, 0, 0, 0⟩
    wheel_buffer := AxisPair.mk 0 0 }

/-- An external stimulus: one of the four directional interrupt triggers, or
one host report request carrying the button flag and the timer value. -/
inductive TBEvent where
  | pulse (axis : Axis) (positive : Bool)
  | tick (select_button_pressed : Bool) (timer_read : Nat)

/-- One stimulus applied to the driver state. -/
noncomputable def trackball_step (s : TBState) : TBEvent → TBState
  | TBEvent.pulse a positive => trackball_move s a (if positive then TB_INCR else TB_DECR)
  | TBEvent.tick b t => (pointing_device_driver_get_report s b t).2

/-- The driver state after a sequence of stimuli from power-on. -/
noncomputable def trackball_run (evs : List TBEvent) : TBState :=
  evs.foldl trackball_step trackball_init

/-- The wheel-buffer invariant: both remainders lie strictly between
-WHEEL_DENOM and WHEEL_DENOM. -/
def wb_inv (s : TBState) : Prop :=
  (-2 < s.wheel_buffer.x ∧ s.wheel_buffer.x < 2) ∧
    (-2 < s.wheel_buffer.y ∧ s.wheel_buffer.y < 2)

/-- A concrete WHEEL-mode state with two pending vertical raw units. -/
noncomputable def demo_wheel_state : TBState :=
  { last_mode := Mode.MODE_WHEEL
    last_report := 0
    distances := AxisPair.mk 0 2
    rate_meters := AxisPair.mk ⟨0, 0⟩ ⟨0, 0⟩
    gliders := AxisPair.mk ⟨0, 0, 0, 0⟩ ⟨0, 0, 0, 0⟩
    wheel_buffer := AxisPair.mk 0 0 }

/-- A concrete MOUSE-mode state with nonzero values in every accumulator. -/
noncomputable def demo_loaded_state : TBState :=
  { last_mode := Mode.MODE_MOUSE
    last_report := 7
    distances := AxisPair.mk 3 (-2)
    rate_meters := AxisPair.mk ⟨5, 1⟩ ⟨2, 0⟩
    gliders := AxisPair.mk ⟨1, 2, 0, 0.5⟩ ⟨-1, 0, 0, 0⟩
    wheel_buffer := AxisPair.mk 1 (-1) }

/-- A concrete MOUSE-mode state whose X glider moves at 1/50 position units
per time unit, starting from a zero fractional position. -/
noncomputable def glide_cast_state : TBState :=
  { last_mode := Mode.MODE_MOUSE
    last_report := 0
    distances := AxisPair.mk 0 0
    rate_meters := AxisPair.mk ⟨0, 0⟩ ⟨0, 0⟩
    gliders := AxisPair.mk ⟨0, 1 / 50, 0, 0⟩ ⟨0, 0, 0, 0⟩
    wheel_buffer := AxisPair.mk 0 0 }

/-! ### Helper lemmas -/

/-- The truncating remainder modulo 2 lies strictly between -2 and 2. -/
theorem tmod_two_bounds (w : Int) : -2 < Int.tmod w 2 ∧ Int.tmod w 2 < 2 := by
  rcases w with n | n
  · have h : Int.tmod (Int.ofNat n) 2 = ((n % 2 : Nat) : Int) := rfl
    omega
  · have h : Int.tmod (Int.negSucc n) 2 = -(((n + 1) % 2 : Nat) : Int) := rfl
    omega

/-- Subtracting the quantized part leaves a remainder strictly inside
(-2, 2), for the truncating division used by C. -/
theorem wheel_remainder_step (w : Int) :
    -2 < w - Int.tdiv w 2 * 2 ∧ w - Int.tdiv w 2 * 2 < 2 := by
  have hd := Int.tmod_def w 2
  have hb := tmod_two_bounds w
  omega

/-- Truncating division by 2 of a value strictly inside (-2, 2) is 0. -/
theorem tdiv_small (x : Int) (h1 : -2 < x) (h2 : x < 2) : Int.tdiv x 2 = 0 := by
  have hx : x = -1 ∨ x = 0 ∨ x = 1 := by omega
  rcases hx with rfl | rfl | rfl <;> decide

/-- record_event genuinely changes the rate meter state. -/
theorem rate_meter_interrupt_ne (m : rate_meter_t) : rate_meter_interrupt m ≠ m := by
  intro h
  have h2 : m.rate + 1 = m.rate := congrArg rate_meter_t.rate h
  linarith

/-- Sampling a halted glider yields a zero delta and leaves it unchanged. -/
theorem glider_glide_halted (g : glider_t) (hv : g.vel = 0) (hp : g.pos = 0)
    (e : Nat) : glider_glide g e = (0, g) := by
  obtain ⟨d, vel, j, pos⟩ := g
  simp only at hv hp
  subst hv
  subst hp
  simp [glider_glide, qtrunc]

/-! ### Claims about the acceleration curve and the velocity distribution -/

/-- C3: for every input r to the acceleration curve with |r| < 0.05, the
curve returns exactly 0. -/
theorem curve_dead_zone (r : ℝ) (h : |r| < 0.05) : rateToVelocityCurve r = 0 := by
  unfold rateToVelocityCurve
  rw [if_pos h]

/-- Witness for C3 at the concrete input 0. -/
theorem curve_dead_zone_witness : |(0 : ℝ)| < 0.05 ∧ rateToVelocityCurve 0 = 0 :=
  ⟨by rw [abs_zero]; norm_num, curve_dead_zone 0 (by rw [abs_zero]; norm_num)⟩

/-- C4: the acceleration curve is strictly increasing above the dead zone:
for 0.05 <= r1 < r2, curve(r1) < curve(r2), where above the dead zone the
curve computes 0.1 + x/20 + x^1.5/40 on x = input - 0.05. -/
theorem curve_strict_mono (r1 r2 : ℝ) (h1 : 0.05 ≤ r1) (h2 : r1 < r2) :
    rateToVelocityCurve r1 < rateToVelocityCurve r2 := by
  have h05 : (0 : ℝ) < 0.05 := by norm_num
  have hr1 : 0 ≤ r1 := le_trans h05.le h1
  have hr2 : 0 ≤ r2 := le_trans hr1 h2.le
  have e1 : |r1| = r1 := abs_of_nonneg hr1
  have e2 : |r2| = r2 := abs_of_nonneg hr2
  unfold rateToVelocityCurve
  rw [e1, e2, if_neg (not_lt.mpr h1), if_neg (not_lt.mpr (le_trans h1 h2.le))]
  have hx1 : (0 : ℝ) ≤ r1 - 0.05 := by linarith
  have hacc : (r1 - 0.05) ^ (1.5 : ℝ) ≤ (r2 - 0.05) ^ (1.5 : ℝ) :=
    Real.rpow_le_rpow hx1 (by linarith) (by norm_num)
  have hacc40 : (r1 - 0.05) ^ (1.5 : ℝ) / 40 ≤ (r2 - 0.05) ^ (1.5 : ℝ) / 40 := by linarith
  have hlin : (r1 - 0.05) / 20 < (r2 - 0.05) / 20 := by linarith
  linarith

/-- Witness for C4 at the concrete inputs 0.05 and 1. -/
theorem curve_strict_mono_witness :
    (0.05 : ℝ) ≤ 0.05 ∧ (0.05 : ℝ) < 1 ∧
      rateToVelocityCurve 0.05 < rateToVelocityCurve 1 :=
  ⟨le_refl _, by norm_num, curve_strict_mono 0.05 1 (le_refl _) (by norm_num)⟩

/-- C5: when the combined Euclidean rate of both axes is 0, the scale factor
is defined as 0 without performing the guarded division, and both per-axis
velocities are 0. -/
theorem velocity_scale_zero_guard (rx ry : ℝ)
    (h : Real.sqrt (rx * rx + ry * ry) = 0) :
    velocity_scale rx ry = 0 ∧ axis_velocities rx ry = (0, 0) := by
  have hs : velocity_scale rx ry = 0 := by
    unfold velocity_scale
    rw [h]
    simp
  refine ⟨hs, ?_⟩
  unfold axis_velocities
  rw [hs, mul_zero, mul_zero]

/-- Witness for C5 with both axes idle. -/
theorem velocity_scale_zero_guard_witness :
    Real.sqrt ((0 : ℝ) * 0 + 0 * 0) = 0 ∧ velocity_scale 0 0 = 0 ∧
      axis_velocities 0 0 = (0, 0) := by
  have h : Real.sqrt ((0 : ℝ) * 0 + 0 * 0) = 0 := by
    rw [mul_zero, add_zero, Real.sqrt_zero]
  exact ⟨h, (velocity_scale_zero_guard 0 0 h).1, (velocity_scale_zero_guard 0 0 h).2⟩

/-! ### Claims about pulse ingestion and the report path -/

/-- C6: every pulse adds the trigger's signed unit to the triggering axis's
raw distance; while the mode is WHEEL that is the only state change, and the
pulse is forwarded to the rate and glide engine exactly when the mode is
MOUSE (the axis's rate meter records the event, so it changes, and the
axis's glider receives the directional impulse). -/
theorem pulse_mode_effects (s : TBState) (axis : Axis) (direction : Int)
    (_hdir : direction = TB_INCR ∨ direction = TB_DECR) :
    (trackball_move s axis direction).distances
        = s.distances.set axis (s.distances.get axis + direction) ∧
    (s.last_mode = Mode.MODE_WHEEL →
      trackball_move s axis direction
        = { s with distances := s.distances.set axis (s.distances.get axis + direction) }) ∧
    (s.last_mode = Mode.MODE_MOUSE →
      (trackball_move s axis direction).rate_meters.get axis
          = rate_meter_interrupt (s.rate_meters.get axis) ∧
      (trackball_move s axis direction).rate_meters.get axis ≠ s.rate_meters.get axis ∧
      ((trackball_move s axis direction).gliders.get axis).dir = direction ∧
      (trackball_move s axis direction).wheel_buffer = s.wheel_buffer) := by
  obtain ⟨lm, lr, di, rm, gl, wb⟩ := s
  cases lm
  case MODE_WHEEL =>
    cases axis <;> exact ⟨rfl, fun _ => rfl, fun h => Mode.noConfusion h⟩
  case MODE_MOUSE =>
    cases axis <;>
      exact ⟨rfl, fun h => Mode.noConfusion h,
        fun _ => ⟨rfl, fun hh => rate_meter_interrupt_ne _ hh, rfl, rfl⟩⟩

/-- Witness for C6: a positive X pulse in a WHEEL-mode state. -/
theorem pulse_mode_effects_witness :
    ((1 : Int) = TB_INCR ∨ (1 : Int) = TB_DECR) ∧
    demo_wheel_state.last_mode = Mode.MODE_WHEEL ∧
    trackball_move demo_wheel_state Axis.AXIS_X 1
      = { demo_wheel_state with
            distances := demo_wheel_state.distances.set Axis.AXIS_X
              (demo_wheel_state.distances.get Axis.AXIS_X + 1) } := by
  have h := pulse_mode_effects demo_wheel_state Axis.AXIS_X 1 (Or.inl rfl)
  exact ⟨Or.inl rfl, rfl, h.2.1 rfl⟩

/-- C9: the outbound report's vertical-scroll field is the negation of the
internally computed vertical tick value, while the horizontal-scroll field
carries the internal horizontal value unnegated. -/
theorem scroll_inversion (s : TBState) (b : Bool) (t : Nat) :
    (pointing_device_driver_get_report s b t).1.v = -(report_ticks s b t).1.v ∧
    (pointing_device_driver_get_report s b t).1.h = (report_ticks s b t).1.h :=
  ⟨rfl, rfl⟩

/-- Witness for C9: an internal vertical tick value of 1 appears in the
outbound report as -1. -/
theorem scroll_inversion_witness :
    (report_ticks demo_wheel_state true 0).1.v = 1 ∧
    (pointing_device_driver_get_report demo_wheel_state true 0).1.v = -1 := by
  have h := (scroll_inversion demo_wheel_state true 0).1
  have hv : (report_ticks demo_wheel_state true 0).1.v = 1 := rfl
  refine ⟨hv, ?_⟩
  rw [h, hv]

/-- C10: on a report tick without a mode transition, the fields of the
inactive mode are zero and its state is untouched: a MOUSE tick reports zero
scroll and leaves the wheel buffer alone, a WHEEL tick reports zero cursor
motion and leaves the gliders alone. -/
theorem inactive_mode_frame (s : TBState) (b : Bool) (t : Nat)
    (h : s.last_mode = mode_of b) :
    (mode_of b = Mode.MODE_MOUSE →
      (pointing_device_driver_get_report s b t).1.h = 0 ∧
      (pointing_device_driver_get_report s b t).1.v = 0 ∧
      (pointing_device_driver_get_report s b t).2.wheel_buffer = s.wheel_buffer) ∧
    (mode_of b = Mode.MODE_WHEEL →
      (pointing_device_driver_get_report s b t).1.x = 0 ∧
      (pointing_device_driver_get_report s b t).1.y = 0 ∧
      (pointing_device_driver_get_report s b t).2.gliders = s.gliders) := by
  obtain ⟨lm, lr, di, rm, gl, wb⟩ := s
  cases b
  · simp only [mode_of, if_neg Bool.false_ne_true] at h
    subst h
    exact ⟨fun _ => ⟨rfl, rfl, rfl⟩, fun hh => Mode.noConfusion hh⟩
  · simp only [mode_of, if_pos rfl] at h
    subst h
    exact ⟨fun hh => Mode.noConfusion hh, fun _ => ⟨rfl, rfl, rfl⟩⟩

/-- Witness for C10: a WHEEL-mode tick on a WHEEL-mode state. -/
theorem inactive_mode_frame_witness :
    demo_wheel_state.last_mode = mode_of true ∧
    (pointing_device_driver_get_report demo_wheel_state true 3).1.x = 0 ∧
    (pointing_device_driver_get_report demo_wheel_state true 3).1.y = 0 ∧
    (pointing_device_driver_get_report demo_wheel_state true 3).2.gliders
      = demo_wheel_state.gliders := by
  have h : demo_wheel_state.last_mode = mode_of true := rfl
  have h2 := (inactive_mode_frame demo_wheel_state true 3 h).2 rfl
  exact ⟨h, h2.1, h2.2.1, h2.2.2⟩

/-- C1: a report tick on which the mode read from the button flag differs
from the previous tick's mode expires both rate estimators, leaves both
gliders halted, zeroes the wheel buffer and the raw distances of both axes,
and emits an all-zero report, whatever the prior accumulator values. -/
theorem mode_switch_reset (s : TBState) (b : Bool) (t : Nat)
    (h : s.last_mode ≠ mode_of b) :
    (pointing_device_driver_get_report s b t).1 = ⟨0, 0, 0, 0⟩ ∧
    (pointing_device_driver_get_report s b t).2.wheel_buffer = AxisPair.mk 0 0 ∧
    (pointing_device_driver_get_report s b t).2.distances = AxisPair.mk 0 0 ∧
    (pointing_device_driver_get_report s b t).2.rate_meters
        = AxisPair.mk (rate_meter_expire s.rate_meters.x) (rate_meter_expire s.rate_meters.y) ∧
    (pointing_device_driver_get_report s b t).2.gliders
        = AxisPair.mk (glider_stop s.gliders.x) (glider_stop s.gliders.y) := by
  obtain ⟨lm, lr, di, rm, gl, wb⟩ := s
  cases b
  · cases lm
    case MODE_MOUSE => exact absurd rfl h
    case MODE_WHEEL =>
      have hx := glider_glide_halted (glider_stop gl.x) rfl rfl
        (TIMER_DIFF_16 (t % 65536) lr % 256)
      have hy := glider_glide_halted (glider_stop gl.y) rfl rfl
        (TIMER_DIFF_16 (t % 65536) lr % 256)
      refine ⟨?_, ?_, ?_, ?_, ?_⟩ <;>
        simp [pointing_device_driver_get_report, report_ticks, mode_of, hx, hy]
  · cases lm
    case MODE_WHEEL => exact absurd rfl h
    case MODE_MOUSE => exact ⟨rfl, rfl, rfl, rfl, rfl⟩

/-- Witness for C1: switching from MOUSE to WHEEL with every accumulator,
rate estimate and glide state nonzero. -/
theorem mode_switch_reset_witness :
    demo_loaded_state.last_mode ≠ mode_of true ∧
    (pointing_device_driver_get_report demo_loaded_state true 42).1 = ⟨0, 0, 0, 0⟩ ∧
    (pointing_device_driver_get_report demo_loaded_state true 42).2.wheel_buffer
      = AxisPair.mk 0 0 ∧
    (pointing_device_driver_get_report demo_loaded_state true 42).2.distances
      = AxisPair.mk 0 0 := by
  have h : demo_loaded_state.last_mode ≠ mode_of true := fun hh => Mode.noConfusion hh
  have h2 := mode_switch_reset demo_loaded_state true 42 h
  exact ⟨h, h2.1, h2.2.1, h2.2.2.1⟩

/-- Pulse ingestion never touches the wheel buffer. -/
theorem trackball_move_wheel_buffer (s : TBState) (axis : Axis) (direction : Int) :
    (trackball_move s axis direction).wheel_buffer = s.wheel_buffer := by
  obtain ⟨lm, lr, di, rm, gl, wb⟩ := s
  cases lm <;> cases axis <;> rfl

/-- A WHEEL-mode report tick always leaves the wheel buffer strictly inside
the quantization bound, whatever the prior state. -/
theorem wheel_tick_bound (s : TBState) (t : Nat) :
    wb_inv (pointing_device_driver_get_report s true t).2 := by
  obtain ⟨lm, lr, di, rm, gl, wb⟩ := s
  obtain ⟨wx, wy⟩ := wb
  obtain ⟨dx, dy⟩ := di
  cases lm
  case MODE_MOUSE =>
    have hwb : (pointing_device_driver_get_report
        ⟨Mode.MODE_MOUSE, lr, AxisPair.mk dx dy, rm, gl, AxisPair.mk wx wy⟩
          true t).2.wheel_buffer = AxisPair.mk 0 0 := rfl
    unfold wb_inv
    rw [hwb]
    decide
  case MODE_WHEEL =>
    have hwb : (pointing_device_driver_get_report
        ⟨Mode.MODE_WHEEL, lr, AxisPair.mk dx dy, rm, gl, AxisPair.mk wx wy⟩
          true t).2.wheel_buffer
        = AxisPair.mk (wx + dx - Int.tdiv (wx + dx) 2 * 2)
            (wy + dy - Int.tdiv (wy + dy) 2 * 2) := rfl
    unfold wb_inv
    rw [hwb]
    exact ⟨wheel_remainder_step (wx + dx), wheel_remainder_step (wy + dy)⟩

/-- Every report tick preserves the wheel-buffer invariant. -/
theorem report_wheel_buffer_bound (s : TBState) (b : Bool) (t : Nat)
    (hs : wb_inv s) : wb_inv (pointing_device_driver_get_report s b t).2 := by
  cases b
  · obtain ⟨lm, lr, di, rm, gl, wb⟩ := s
    obtain ⟨wx, wy⟩ := wb
    cases lm
    case MODE_WHEEL =>
      have hwb : (pointing_device_driver_get_report
          ⟨Mode.MODE_WHEEL, lr, di, rm, gl, AxisPair.mk wx wy⟩
            false t).2.wheel_buffer = AxisPair.mk 0 0 := rfl
      unfold wb_inv
      rw [hwb]
      decide
    case MODE_MOUSE =>
      have hwb : (pointing_device_driver_get_report
          ⟨Mode.MODE_MOUSE, lr, di, rm, gl, AxisPair.mk wx wy⟩
            false t).2.wheel_buffer = AxisPair.mk wx wy := rfl
      unfold wb_inv at hs ⊢
      rw [hwb]
      exact hs
  · exact wheel_tick_bound s t

/-- Any single stimulus preserves the wheel-buffer invariant. -/
theorem step_wb_inv (s : TBState) (e : TBEvent) (hs : wb_inv s) :
    wb_inv (trackball_step s e) := by
  cases e
  case pulse a positive =>
    show wb_inv (trackball_move s a (if positive then TB_INCR else TB_DECR))
    unfold wb_inv at hs ⊢
    rw [trackball_move_wheel_buffer]
    exact hs
  case tick b t => exact report_wheel_buffer_bound s b t hs

/-- The wheel-buffer invariant is inductive along any stimulus sequence. -/
theorem run_wb_inv (evs : List TBEvent) :
    ∀ s : TBState, wb_inv s → wb_inv (evs.foldl trackball_step s) := by
  induction evs with
  | nil => exact fun _ hs => hs
  | cons e rest ih => exact fun s hs => ih _ (step_wb_inv s e hs)

/-- C2: after every sequence of pulses and report ticks from power-on, the
wheel buffer of each axis stays strictly below WHEEL_DENOM = 2 in
magnitude; in particular this holds after each report tick's computation. -/
theorem wheel_remainder_bound (evs : List TBEvent) (a : Axis) :
    |(trackball_run evs).wheel_buffer.get a| < 2 := by
  have h0 : wb_inv trackball_init := by
    unfold wb_inv
    decide
  have h := run_wb_inv evs trackball_init h0
  unfold wb_inv at h
  cases a
  · rw [abs_lt]
    exact ⟨h.1.1, h.1.2⟩
  · rw [abs_lt]
    exact ⟨h.2.1, h.2.2⟩

/-- Every report tick records the button-derived mode as the last mode. -/
theorem report_last_mode (s : TBState) (b : Bool) (t : Nat) :
    (pointing_device_driver_get_report s b t).2.last_mode = mode_of b := by
  obtain ⟨lm, lr, di, rm, gl, wb⟩ := s
  cases b <;> cases lm <;> rfl

/-- Every report tick clears the raw distances of both axes. -/
theorem report_distances (s : TBState) (b : Bool) (t : Nat) :
    (pointing_device_driver_get_report s b t).2.distances = AxisPair.mk 0 0 := by
  obtain ⟨lm, lr, di, rm, gl, wb⟩ := s
  cases b <;> cases lm <;> rfl

/-- A MOUSE-mode report tick on halted gliders reports zero cursor motion
and leaves both gliders halted. -/
theorem mouse_tick_halted (s : TBState) (t : Nat)
    (hx : s.gliders.x.halted) (hy : s.gliders.y.halted) :
    (pointing_device_driver_get_report s false t).1.x = 0 ∧
    (pointing_device_driver_get_report s false t).1.y = 0 ∧
    (pointing_device_driver_get_report s false t).2.gliders.x.halted ∧
    (pointing_device_driver_get_report s false t).2.gliders.y.halted := by
  obtain ⟨lm, lr, di, rm, gl, wb⟩ := s
  cases lm
  case MODE_WHEEL =>
    have hgx := glider_glide_halted (glider_stop gl.x) rfl rfl
      (TIMER_DIFF_16 (t % 65536) lr % 256)
    have hgy := glider_glide_halted (glider_stop gl.y) rfl rfl
      (TIMER_DIFF_16 (t % 65536) lr % 256)
    refine ⟨?_, ?_, ?_, ?_⟩
    · simp [pointing_device_driver_get_report, report_ticks, mode_of, hgx, hgy]
    · simp [pointing_device_driver_get_report, report_ticks, mode_of, hgx, hgy]
    · have e : (pointing_device_driver_get_report
          ⟨Mode.MODE_WHEEL, lr, di, rm, gl, wb⟩ false t).2.gliders.x
          = (glider_glide (glider_stop gl.x)
              (TIMER_DIFF_16 (t % 65536) lr % 256)).2 := rfl
      show ((pointing_device_driver_get_report
          ⟨Mode.MODE_WHEEL, lr, di, rm, gl, wb⟩ false t).2.gliders.x).halted
      rw [e, hgx]
      exact ⟨rfl, rfl⟩
    · have e : (pointing_device_driver_get_report
          ⟨Mode.MODE_WHEEL, lr, di, rm, gl, wb⟩ false t).2.gliders.y
          = (glider_glide (glider_stop gl.y)
              (TIMER_DIFF_16 (t % 65536) lr % 256)).2 := rfl
      show ((pointing_device_driver_get_report
          ⟨Mode.MODE_WHEEL, lr, di, rm, gl, wb⟩ false t).2.gliders.y).halted
      rw [e, hgy]
      exact ⟨rfl, rfl⟩
  case MODE_MOUSE =>
    have hgx := glider_glide_halted gl.x hx.1 hx.2
      (TIMER_DIFF_16 (t % 65536) lr % 256)
    have hgy := glider_glide_halted gl.y hy.1 hy.2
      (TIMER_DIFF_16 (t % 65536) lr % 256)
    refine ⟨?_, ?_, ?_, ?_⟩
    · simp [pointing_device_driver_get_report, report_ticks, mode_of, hgx, hgy]
    · simp [pointing_device_driver_get_report, report_ticks, mode_of, hgx, hgy]
    · have e : (pointing_device_driver_get_report
          ⟨Mode.MODE_MOUSE, lr, di, rm, gl, wb⟩ false t).2.gliders.x
          = (glider_glide gl.x (TIMER_DIFF_16 (t % 65536) lr % 256)).2 := rfl
      show ((pointing_device_driver_get_report
          ⟨Mode.MODE_MOUSE, lr, di, rm, gl, wb⟩ false t).2.gliders.x).halted
      rw [e, hgx]
      exact hx
    · have e : (pointing_device_driver_get_report
          ⟨Mode.MODE_MOUSE, lr, di, rm, gl, wb⟩ false t).2.gliders.y
          = (glider_glide gl.y (TIMER_DIFF_16 (t % 65536) lr % 256)).2 := rfl
      show ((pointing_device_driver_get_report
          ⟨Mode.MODE_MOUSE, lr, di, rm, gl, wb⟩ false t).2.gliders.y).halted
      rw [e, hgy]
      exact hy

/-- A WHEEL-mode report tick with no pending raw distance and an in-bound
wheel buffer reports zero scroll and leaves the wheel buffer unchanged. -/
theorem wheel_tick_no_motion (s : TBState) (t : Nat)
    (hmode : s.last_mode = Mode.MODE_WHEEL)
    (hdist : s.distances = AxisPair.mk 0 0)
    (hinv : wb_inv s) :
    (pointing_device_driver_get_report s true t).1.h = 0 ∧
    (pointing_device_driver_get_report s true t).1.v = 0 ∧
    (pointing_device_driver_get_report s true t).2.wheel_buffer = s.wheel_buffer := by
  obtain ⟨lm, lr, di, rm, gl, wb⟩ := s
  obtain ⟨wx, wy⟩ := wb
  have hm : lm = Mode.MODE_WHEEL := hmode
  subst hm
  have hd : di = AxisPair.mk 0 0 := hdist
  subst hd
  have h1 : -2 < wx := hinv.1.1
  have h2 : wx < 2 := hinv.1.2
  have h3 : -2 < wy := hinv.2.1
  have h4 : wy < 2 := hinv.2.2
  have htx : Int.tdiv (wx + 0) 2 = 0 := tdiv_small _ (by omega) (by omega)
  have hty : Int.tdiv (wy + 0) 2 = 0 := tdiv_small _ (by omega) (by omega)
  refine ⟨?_, ?_, ?_⟩
  · have e : (pointing_device_driver_get_report
        ⟨Mode.MODE_WHEEL, lr, AxisPair.mk 0 0, rm, gl, AxisPair.mk wx wy⟩
          true t).1.h = Int.tdiv (wx + 0) 2 := rfl
    rw [e, htx]
  · have e : (pointing_device_driver_get_report
        ⟨Mode.MODE_WHEEL, lr, AxisPair.mk 0 0, rm, gl, AxisPair.mk wx wy⟩
          true t).1.v = -Int.tdiv (wy + 0) 2 := rfl
    rw [e, hty]
    rfl
  · have e : (pointing_device_driver_get_report
        ⟨Mode.MODE_WHEEL, lr, AxisPair.mk 0 0, rm, gl, AxisPair.mk wx wy⟩
          true t).2.wheel_buffer
        = AxisPair.mk (wx + 0 - Int.tdiv (wx + 0) 2 * 2)
            (wy + 0 - Int.tdiv (wy + 0) 2 * 2) := rfl
    rw [e, htx, hty]
    simp

/-- C7: if no pulses arrive between two consecutive report ticks and the
mode is unchanged, the second MOUSE-mode report (from a halted glide)
carries zero cursor deltas, and the second WHEEL-mode report carries zero
scroll deltas and leaves the wheel buffer unchanged. -/
theorem no_motion_idempotent (s : TBState) (b : Bool) (t1 t2 : Nat) :
    (mode_of b = Mode.MODE_MOUSE → s.gliders.x.halted → s.gliders.y.halted →
      (pointing_device_driver_get_report
          (pointing_device_driver_get_report s b t1).2 b t2).1.x = 0 ∧
      (pointing_device_driver_get_report
          (pointing_device_driver_get_report s b t1).2 b t2).1.y = 0) ∧
    (mode_of b = Mode.MODE_WHEEL →
      (pointing_device_driver_get_report
          (pointing_device_driver_get_report s b t1).2 b t2).1.h = 0 ∧
      (pointing_device_driver_get_report
          (pointing_device_driver_get_report s b t1).2 b t2).1.v = 0 ∧
      (pointing_device_driver_get_report
          (pointing_device_driver_get_report s b t1).2 b t2).2.wheel_buffer
        = (pointing_device_driver_get_report s b t1).2.wheel_buffer) := by
  cases b
  · refine ⟨fun _ hx hy => ?_, fun hh => Mode.noConfusion hh⟩
    have h1 := mouse_tick_halted s t1 hx hy
    have h2 := mouse_tick_halted (pointing_device_driver_get_report s false t1).2 t2
      h1.2.2.1 h1.2.2.2
    exact ⟨h2.1, h2.2.1⟩
  · refine ⟨fun hh => Mode.noConfusion hh, fun _ => ?_⟩
    exact wheel_tick_no_motion _ t2
      (by rw [report_last_mode]; rfl)
      (report_distances s true t1)
      (wheel_tick_bound s t1)

/-- Witness for C7: two MOUSE-mode ticks from the power-on state. -/
theorem no_motion_idempotent_witness :
    mode_of false = Mode.MODE_MOUSE ∧
    trackball_init.gliders.x.halted ∧ trackball_init.gliders.y.halted ∧
    (pointing_device_driver_get_report
        (pointing_device_driver_get_report trackball_init false 5).2 false 9).1.x = 0 ∧
    (pointing_device_driver_get_report
        (pointing_device_driver_get_report trackball_init false 5).2 false 9).1.y = 0 := by
  have hx : trackball_init.gliders.x.halted := ⟨rfl, rfl⟩
  have hy : trackball_init.gliders.y.halted := ⟨rfl, rfl⟩
  have h := (no_motion_idempotent trackball_init false 5 9).1 rfl hx hy
  exact ⟨rfl, hx, hy, h.1, h.2⟩

/-- C8 counterexample: on a MOUSE-mode tick whose 16-bit elapsed time is
300, the glide engine is not sampled with that elapsed time: the driver
casts it to 8 bits first (300 becomes 44), so a glider moving 1/50 position
units per time unit returns 0 rather than the 6 the claim would demand. -/
theorem glide_sampling_counterexample :
    TIMER_DIFF_16 (300 % 65536) glide_cast_state.last_report = 300 ∧
    (pointing_device_driver_get_report glide_cast_state false 300).1.x ≠
      (glider_glide glide_cast_state.gliders.x 300).1 := by
  have hTD : TIMER_DIFF_16 (300 % 65536) glide_cast_state.last_report = 300 := by decide
  have hL : (pointing_device_driver_get_report glide_cast_state false 300).1.x
      = qtrunc ((0 : ℝ) + 1 / 50 * ((44 : ℕ) : ℝ)) := rfl
  have hR : (glider_glide glide_cast_state.gliders.x 300).1
      = qtrunc ((0 : ℝ) + 1 / 50 * ((300 : ℕ) : ℝ)) := rfl
  have h1 : qtrunc ((0 : ℝ) + 1 / 50 * ((44 : ℕ) : ℝ)) = 0 := by
    have hv : ((0 : ℝ) + 1 / 50 * ((44 : ℕ) : ℝ)) = 22 / 25 := by
      push_cast
      norm_num
    unfold qtrunc
    rw [hv, if_neg (by norm_num : ¬(22 / 25 : ℝ) < 0), Int.floor_eq_zero_iff,
      Set.mem_Ico]
    exact ⟨by norm_num, by norm_num⟩
  have h2 : qtrunc ((0 : ℝ) + 1 / 50 * ((300 : ℕ) : ℝ)) = 6 := by
    have hv : ((0 : ℝ) + 1 / 50 * ((300 : ℕ) : ℝ)) = 6 := by
      push_cast
      norm_num
    unfold qtrunc
    rw [hv, if_neg (by norm_num : ¬(6 : ℝ) < 0)]
    rw [show (6 : ℝ) = ((6 : ℤ) : ℝ) by norm_num, Int.floor_intCast]
  refine ⟨hTD, ?_⟩
  rw [hL, hR, h1, h2]
  decide

/-- C8 amended: on every MOUSE-mode report tick, the elapsed time is
computed as wraparound-safe unsigned subtraction over the timer's full
16-bit width, but each axis's glider (the just-halted one on a transition
tick) is sampled with only the low 8 bits of that elapsed time, and the
returned deltas become the report's cursor fields. -/
theorem glide_sampling_amended (s : TBState) (t : Nat)
    (h16 : t < 65536) (hlr : s.last_report < 65536) :
    ((TIMER_DIFF_16 t s.last_report : Int)
        = ((t : Int) - (s.last_report : Int)) % 65536) ∧
    (pointing_device_driver_get_report s false t).1.x
        = (glider_glide
            (if s.last_mode = Mode.MODE_MOUSE then s.gliders.x else glider_stop s.gliders.x)
            (TIMER_DIFF_16 t s.last_report % 256)).1 ∧
    (pointing_device_driver_get_report s false t).1.y
        = (glider_glide
            (if s.last_mode = Mode.MODE_MOUSE then s.gliders.y else glider_stop s.gliders.y)
            (TIMER_DIFF_16 t s.last_report % 256)).1 := by
  refine ⟨?_, ?_, ?_⟩
  · unfold TIMER_DIFF_16
    omega
  · obtain ⟨lm, lr, di, rm, gl, wb⟩ := s
    have ht : t % 65536 = t := Nat.mod_eq_of_lt h16
    cases lm
    case MODE_MOUSE =>
      rw [show (pointing_device_driver_get_report
          ⟨Mode.MODE_MOUSE, lr, di, rm, gl, wb⟩ false t).1.x
          = (glider_glide gl.x (TIMER_DIFF_16 (t % 65536) lr % 256)).1 from rfl, ht]
      rfl
    case MODE_WHEEL =>
      rw [show (pointing_device_driver_get_report
          ⟨Mode.MODE_WHEEL, lr, di, rm, gl, wb⟩ false t).1.x
          = (glider_glide (glider_stop gl.x)
              (TIMER_DIFF_16 (t % 65536) lr % 256)).1 from rfl, ht]
      rfl
  · obtain ⟨lm, lr, di, rm, gl, wb⟩ := s
    have ht : t % 65536 = t := Nat.mod_eq_of_lt h16
    cases lm
    case MODE_MOUSE =>
      rw [show (pointing_device_driver_get_report
          ⟨Mode.MODE_MOUSE, lr, di, rm, gl, wb⟩ false t).1.y
          = (glider_glide gl.y (TIMER_DIFF_16 (t % 65536) lr % 256)).1 from rfl, ht]
      rfl
    case MODE_WHEEL =>
      rw [show (pointing_device_driver_get_report
          ⟨Mode.MODE_WHEEL, lr, di, rm, gl, wb⟩ false t).1.y
          = (glider_glide (glider_stop gl.y)
              (TIMER_DIFF_16 (t % 65536) lr % 256)).1 from rfl, ht]
      rfl

/-- Witness for the amended C8 at a concrete state and timer value. -/
theorem glide_sampling_amended_witness :
    (100 : Nat) < 65536 ∧ glide_cast_state.last_report < 65536 ∧
    ((TIMER_DIFF_16 100 glide_cast_state.last_report : Int)
        = ((100 : Int) - (glide_cast_state.last_report : Int)) % 65536) ∧
    (pointing_device_driver_get_report glide_cast_state false 100).1.x
        = (glider_glide
            (if glide_cast_state.last_mode = Mode.MODE_MOUSE then glide_cast_state.gliders.x
             else glider_stop glide_cast_state.gliders.x)
            (TIMER_DIFF_16 100 glide_cast_state.last_report % 256)).1 := by
  have h := glide_sampling_amended glide_cast_state 100 (by decide) (by decide)
  exact ⟨by decide, by decide, h.1, h.2.1⟩

end Trackball
